import Mathlib

/-!
Verification of the primary-monitor reassignment core of wmutil
(src/src/lib.rs) against its specification.

The embedding models the Win32 environment as an explicit `World`:
the list of monitor handles in enumeration order, the per-handle
`GetMonitorInfoW` result, the per-name `EnumDisplaySettingsW` result
(DEVMODE), the status codes the OS would return from the staging and
committing `ChangeDisplaySettingsExW` calls, and the per-handle DPI.

Configuration writes issued to the OS are recorded as an `Event` trace:
`Event.stage name pos flags` for a `ChangeDisplaySettingsExW` call naming
a device and carrying a DEVMODE whose `dmPosition` is `pos`, and
`Event.commit` for the finalizing `ChangeDisplaySettingsExW(null, null,
0, 0, null)` call.

Rust panics (`assert!`, `Option::unwrap`, `Result::unwrap`, and checked
i32 overflow) are modelled as `Except.error` values of type `Err`.
-/

namespace Wmutil

/-- Status code returned by `ChangeDisplaySettingsExW` on success
(`DISP_CHANGE_SUCCESSFUL` in windows_sys). -/
def DISP_CHANGE_SUCCESSFUL : Int := 0

/-- Status code `DISP_CHANGE_FAILED` (a representative non-success code). -/
def DISP_CHANGE_FAILED : Int := -1

/-- Flag `CDS_UPDATEREGISTRY` (0x00000001). -/
def CDS_UPDATEREGISTRY : Nat := 1

/-- Flag `CDS_NORESET` (0x10000000). -/
def CDS_NORESET : Nat := 268435456

/-- Flag `CDS_SET_PRIMARY` (0x00000010). -/
def CDS_SET_PRIMARY : Nat := 16

/-- Baseline DPI, `pub const BASE_DPI: u32 = 96` (lib.rs:33). -/
def BASE_DPI : Nat := 96

/-- Scale factor derived from a DPI value, `dpi_to_scale_factor`
(lib.rs:35-37): `dpi as f64 / BASE_DPI as f64`.  The single f64 division
is modelled by exact rational division. -/
def dpi_to_scale_factor (dpi : Nat) : ℚ := (dpi : ℚ) / (BASE_DPI : ℚ)

/-- Per-handle result of `GetMonitorInfoW`: the device name `szDevice`
and the top-left corner of `rcMonitor` (the monitor's virtual-desktop
position).  Only the fields the reassignment core reads are modelled. -/
structure MonitorInfo where
  name : String
  posX : Int
  posY : Int
deriving DecidableEq

/-- Per-name result of `EnumDisplaySettingsW`: a DEVMODE record.  The
core only ever writes its `dmPosition` field, so only that field is
modelled; the rest of the record is opaque and carried unchanged. -/
structure DevMode where
  dmPositionX : Int
  dmPositionY : Int
deriving DecidableEq

/-- The OS environment a single call runs against.  `monitors` is the
handle list produced by `EnumDisplayMonitors` in enumeration order;
`info h = none` models a failing `GetMonitorInfoW` for handle `h`;
`devmode n = none` models a failing `EnumDisplaySettingsW` for device
name `n`; `stageStatus n` is the status the OS returns from a staging
`ChangeDisplaySettingsExW` call for device `n` (the code discards it);
`commitStatus` is the status of the finalizing call; `dpi h` is what
`GetDpiForMonitor` reports for handle `h` (`none` when unavailable). -/
structure World where
  monitors : List Nat
  info : Nat → Option MonitorInfo
  devmode : String → Option DevMode
  stageStatus : String → Int
  commitStatus : Int
  dpi : Nat → Option Nat

/-- Rust panics of the core, by site: `panicInfo` is the
`get_monitor_info(..).unwrap()` inside `MonitorHandle::name`
(lib.rs:58); `panicNotFound name` is the `assert!` at lib.rs:385;
`panicDevMode name` is `get_dev_mode(..).unwrap()` (lib.rs:404/415);
`panicOverflow` is a checked i32 overflow. -/
inductive Err where
  | panicInfo : Err
  | panicNotFound : String → Err
  | panicDevMode : String → Err
  | panicOverflow : Err
deriving DecidableEq

/-- A configuration write issued to the OS. -/
inductive Event where
  | stage : String → Int × Int → Nat → Event
  | commit : Event
deriving DecidableEq

/-- Smallest i32 value. -/
def I32_MIN : Int := -(2 ^ 31)

/-- Largest i32 value. -/
def I32_MAX : Int := 2 ^ 31 - 1

/-- Checked i32 negation (`this_x.neg()`, lib.rs:396-397): panics on
overflow, i.e. on `i32::MIN`. -/
def negI32 (x : Int) : Except Err Int :=
  if I32_MIN ≤ -x ∧ -x ≤ I32_MAX then .ok (-x) else .error .panicOverflow

/-- Checked i32 addition (`monitor_x + x_offset`, lib.rs:407-408):
panics on overflow. -/
def addI32 (x y : Int) : Except Err Int :=
  if I32_MIN ≤ x + y ∧ x + y ≤ I32_MAX then .ok (x + y) else .error .panicOverflow

/-- MonitorHandle::name (lib.rs:57-60): `get_monitor_info(self.0).unwrap()`
then `Some(decode_wide(szDevice))`.  The unwrap panics when the info
query fails; on success the result is always `some`. -/
def monitorHandleNameOpt (info : Nat → Option MonitorInfo) (h : Nat) :
    Except Err (Option String) :=
  match info h with
  | some i => .ok (some i.name)
  | none => .error .panicInfo

/-- Monitor name getter of the pyclass (lib.rs:256-258):
`self.monitor_handle.name().unwrap_or("Unknown monitor name")`.  Since
`MonitorHandle::name` never returns `None`, the default is unreachable;
the info-query panic propagates. -/
def monitorName (info : Nat → Option MonitorInfo) (h : Nat) : Except Err String :=
  match monitorHandleNameOpt info h with
  | .ok o => .ok (o.getD "Unknown monitor name")
  | .error e => .error e

/-- MonitorHandle::position (lib.rs:98-106): the top-left corner of
`rcMonitor`, with `unwrap_or(PhysicalPosition { x: 0, y: 0 })` when the
info query fails. -/
def monitorHandlePosition (info : Nat → Option MonitorInfo) (h : Nat) : Int × Int :=
  match info h with
  | some i => (i.posX, i.posY)
  | none => (0, 0)

/-- get_monitor_dpi (lib.rs:204-219): what `GetDpiForMonitor` reports,
`none` when the API is absent or the call fails. -/
def get_monitor_dpi (w : World) (h : Nat) : Option Nat := w.dpi h

/-- MonitorHandle::scale_factor (lib.rs:108-111):
`dpi_to_scale_factor(get_monitor_dpi(self.0).unwrap_or(96))`. -/
def monitorHandleScaleFactor (w : World) (h : Nat) : ℚ :=
  dpi_to_scale_factor ((get_monitor_dpi w h).getD 96)

/-- get_dev_mode (lib.rs:355-370): `EnumDisplaySettingsW` for a device
name, returning the DEVMODE or an error string naming the display. -/
def get_dev_mode (devmode : String → Option DevMode) (display_name : String) :
    Except String DevMode :=
  match devmode display_name with
  | some d => .ok d
  | none => .error ("Failed to retrieve settings for display: " ++ display_name)

/-- Search loop of set_primary_monitor (lib.rs:376-382): scan the
enumerated monitors in order and stop at the first whose name equals
`display_name`. -/
def findMonitor (info : Nat → Option MonitorInfo) (ms : List Nat)
    (display_name : String) : Except Err (Option Nat) :=
  match ms with
  | [] => .ok none
  | h :: t =>
    match monitorName info h with
    | .error e => .error e
    | .ok n => if n = display_name then .ok (some h) else findMonitor info t display_name

/-- Flags of the non-target staging call (lib.rs:411):
`CDS_UPDATEREGISTRY | CDS_NORESET`. -/
def stageFlags : Nat := CDS_UPDATEREGISTRY ||| CDS_NORESET

/-- Flags of the target staging call (lib.rs:419):
`CDS_SET_PRIMARY | CDS_UPDATEREGISTRY | CDS_NORESET`. -/
def primaryFlags : Nat := CDS_SET_PRIMARY ||| CDS_UPDATEREGISTRY ||| CDS_NORESET

/-- Non-target staging loop of set_primary_monitor (lib.rs:402-414).
For each monitor whose name differs from `display_name`: fetch its
DEVMODE via `get_dev_mode` (`unwrap` panics on failure), compute the
translated position with checked i32 adds, and issue the staging call;
the staging call's status code is discarded by the source.  Returns the
prefix of staging events issued, and the panic that interrupted the
loop, if any. -/
def stageOthers (info : Nat → Option MonitorInfo) (devmode : String → Option DevMode)
    (ms : List Nat) (display_name : String) (xo yo : Int) :
    List Event × Option Err :=
  match ms with
  | [] => ([], none)
  | h :: t =>
    match monitorName info h with
    | .error e => ([], some e)
    | .ok n =>
      if n ≠ display_name then
        match get_dev_mode devmode n with
        | .error _ => ([], some (.panicDevMode n))
        | .ok _dm =>
          match addI32 (monitorHandlePosition info h).1 xo with
          | .error e => ([], some e)
          | .ok nx =>
            match addI32 (monitorHandlePosition info h).2 yo with
            | .error e => ([], some e)
            | .ok ny =>
              (Event.stage n (nx, ny) stageFlags ::
                  (stageOthers info devmode t display_name xo yo).1,
                (stageOthers info devmode t display_name xo yo).2)
      else stageOthers info devmode t display_name xo yo

/-- set_primary_monitor (lib.rs:373-430).  Enumerate, find the first
monitor named `display_name` (`assert!` panics when there is none);
short-circuit with `Ok(true)` when the target is already at the origin;
otherwise negate the target position (checked), stage every other
monitor translated by that offset, fetch and stage the target's DEVMODE
at `(0, 0)` with `CDS_SET_PRIMARY`, issue the single finalizing commit,
and map its status to `Ok(true)` on `DISP_CHANGE_SUCCESSFUL` and
`Ok(false)` on anything else.  Returns the result together with the
trace of configuration writes issued. -/
def set_primary_monitor (w : World) (display_name : String) :
    Except Err Bool × List Event :=
  match findMonitor w.info w.monitors display_name with
  | .error e => (.error e, [])
  | .ok none => (.error (.panicNotFound display_name), [])
  | .ok (some this_monitor) =>
    if (monitorHandlePosition w.info this_monitor).1 = 0 ∧
        (monitorHandlePosition w.info this_monitor).2 = 0 then
      (.ok true, [])
    else
      match negI32 (monitorHandlePosition w.info this_monitor).1 with
      | .error e => (.error e, [])
      | .ok x_offset =>
        match negI32 (monitorHandlePosition w.info this_monitor).2 with
        | .error e => (.error e, [])
        | .ok y_offset =>
          match stageOthers w.info w.devmode w.monitors display_name x_offset y_offset with
          | (tr, some e) => (.error e, tr)
          | (tr, none) =>
            match get_dev_mode w.devmode display_name with
            | .error _ => (.error (.panicDevMode display_name), tr)
            | .ok _dm =>
              if w.commitStatus = DISP_CHANGE_SUCCESSFUL then
                (.ok true, tr ++ [Event.stage display_name (0, 0) primaryFlags, Event.commit])
              else
                (.ok false, tr ++ [Event.stage display_name (0, 0) primaryFlags, Event.commit])

/-- Monitor::set_primary of the pyclass (lib.rs:291-294): call
`set_primary_monitor(self.name())` and discard its result, returning
`Ok(())`; panics raised inside the call propagate. -/
def monitor_set_primary (w : World) (h : Nat) : Except Err Unit × List Event :=
  match monitorName w.info h with
  | .error e => (.error e, [])
  | .ok n =>
    match (set_primary_monitor w n).1 with
    | .ok _ => (.ok (), (set_primary_monitor w n).2)
    | .error e => (.error e, (set_primary_monitor w n).2)

/-- Effect of one staged change once the commit activates it, following
the spec's description of staging and commit ("submitting a
configuration change to the OS without yet activating it"; "the single
call that atomically activates all staged configuration changes"): the
monitors whose device name matches the staged name move to the staged
position, and the registry-backed DEVMODE for that name records it. -/
def applyStage (w : World) (n : String) (p : Int × Int) : World :=
  { w with
    info := fun h =>
      match w.info h with
      | some i => if i.name = n then some { i with posX := p.1, posY := p.2 } else some i
      | none => none
    devmode := fun m =>
      if m = n then
        (w.devmode m).map (fun d => { d with dmPositionX := p.1, dmPositionY := p.2 })
      else w.devmode m }

/-- Effect of a whole trace of writes once committed. -/
def applyTrace (w : World) : List Event → World
  | [] => w
  | Event.stage n p _ :: t => applyTrace (applyStage w n p) t
  | Event.commit :: t => applyTrace w t

/-- World after one `set_primary_monitor` call: when the call returns
`Ok(true)` the commit succeeded (or nothing was staged) and the staged
changes are active; otherwise the layout is unchanged. -/
def nextWorld (w : World) (display_name : String) : World :=
  match set_primary_monitor w display_name with
  | (.ok true, tr) => applyTrace w tr
  | _ => w

/-- Concrete two-monitor environment: "A" at the origin, "B" at
(1920, 0), both DEVMODE-readable, every OS call succeeding. -/
def cw1 : World where
  monitors := [0, 1]
  info := fun h =>
    if h = 0 then some ⟨"A", 0, 0⟩ else if h = 1 then some ⟨"B", 1920, 0⟩ else none
  devmode := fun n =>
    if n = "A" then some ⟨0, 0⟩ else if n = "B" then some ⟨1920, 0⟩ else none
  stageStatus := fun _ => 0
  commitStatus := 0
  dpi := fun _ => none

/-- Concrete single-monitor environment with monitor "A" at the origin. -/
def cw3 : World where
  monitors := [0]
  info := fun h => if h = 0 then some ⟨"A", 0, 0⟩ else none
  devmode := fun n => if n = "A" then some ⟨0, 0⟩ else none
  stageStatus := fun _ => 0
  commitStatus := 0
  dpi := fun _ => none

/-- Concrete environment where the OS reports failure
(`DISP_CHANGE_FAILED`) for the staging call of monitor "B" while
everything else succeeds. -/
def cw4 : World where
  monitors := [0, 1]
  info := fun h =>
    if h = 0 then some ⟨"A", 100, 0⟩ else if h = 1 then some ⟨"B", -500, 20⟩ else none
  devmode := fun n =>
    if n = "A" then some ⟨100, 0⟩ else if n = "B" then some ⟨-500, 20⟩ else none
  stageStatus := fun n => if n = "B" then DISP_CHANGE_FAILED else 0
  commitStatus := 0
  dpi := fun _ => none

/-- Variant of `cw4` where fetching monitor "B"'s DEVMODE fails. -/
def cw4e : World :=
  { cw4 with devmode := fun n => if n = "A" then some ⟨100, 0⟩ else none }

/-- Variant of `cw1` where the finalizing commit is rejected. -/
def cw5 : World := { cw1 with commitStatus := DISP_CHANGE_FAILED }

/-- Concrete environment with two monitors that share the name "A":
handle 0 at (10, 20) and handle 1 at (30, 40). -/
def cw7 : World where
  monitors := [0, 1]
  info := fun h =>
    if h = 0 then some ⟨"A", 10, 20⟩ else if h = 1 then some ⟨"A", 30, 40⟩ else none
  devmode := fun n => if n = "A" then some ⟨10, 20⟩ else none
  stageStatus := fun _ => 0
  commitStatus := 0
  dpi := fun _ => none

/-- Concrete single-monitor environment with "A" away from the origin
and a succeeding commit. -/
def cw8 : World where
  monitors := [0]
  info := fun h => if h = 0 then some ⟨"A", 5, 5⟩ else none
  devmode := fun n => if n = "A" then some ⟨5, 5⟩ else none
  stageStatus := fun _ => 0
  commitStatus := 0
  dpi := fun _ => none

/-- Variant of `cw8` where the finalizing commit is rejected. -/
def cw8f : World := { cw8 with commitStatus := DISP_CHANGE_FAILED }

/-- Concrete environment whose monitor reports a DPI of 144. -/
def cw9 : World := { cw8 with dpi := fun _ => some 144 }

/-- Concrete environment with one enumerated monitor whose
`GetMonitorInfoW` query fails. -/
def cw10 : World where
  monitors := [0]
  info := fun _ => none
  devmode := fun _ => none
  stageStatus := fun _ => 0
  commitStatus := 0
  dpi := fun _ => none

/-- Inversion for checked negation: a successful `negI32` returns the
exact negation. -/
theorem negI32_ok {x y : Int} (h : negI32 x = .ok y) : y = -x := by
  unfold negI32 at h
  split at h
  · simp only [Except.ok.injEq] at h
    omega
  · simp at h

/-- Inversion for checked negation: a failing `negI32` panics with the
overflow panic. -/
theorem negI32_error {x : Int} {e : Err} (h : negI32 x = .error e) :
    e = Err.panicOverflow := by
  unfold negI32 at h
  split at h
  · simp at h
  · simp only [Except.error.injEq] at h
    exact h.symm

/-- Inversion for checked addition: a successful `addI32` returns the
exact sum. -/
theorem addI32_ok {x y z : Int} (h : addI32 x y = .ok z) : z = x + y := by
  unfold addI32 at h
  split at h
  · simp only [Except.ok.injEq] at h
    omega
  · simp at h

/-- Inversion for checked addition: a failing `addI32` panics with the
overflow panic. -/
theorem addI32_error {x y : Int} {e : Err} (h : addI32 x y = .error e) :
    e = Err.panicOverflow := by
  unfold addI32 at h
  split at h
  · simp at h
  · simp only [Except.error.injEq] at h
    exact h.symm

/-- Inversion for the name getter: a returned name is the `szDevice`
field of a successful info query. -/
theorem monitorName_ok {info : Nat → Option MonitorInfo} {h : Nat} {n : String}
    (hn : monitorName info h = .ok n) : ∃ i, info h = some i ∧ i.name = n := by
  unfold monitorName monitorHandleNameOpt at hn
  cases hi : info h with
  | none => rw [hi] at hn; simp at hn
  | some i =>
    rw [hi] at hn
    simp at hn
    exact ⟨i, rfl, hn⟩

/-- Inversion for the name getter: it can only fail with the info-query
panic, and only when the info query fails. -/
theorem monitorName_error {info : Nat → Option MonitorInfo} {h : Nat} {e : Err}
    (hn : monitorName info h = .error e) : e = Err.panicInfo ∧ info h = none := by
  unfold monitorName monitorHandleNameOpt at hn
  cases hi : info h with
  | none =>
    rw [hi] at hn
    simp only [Except.error.injEq] at hn
    exact ⟨hn.symm, rfl⟩
  | some i => rw [hi] at hn; simp at hn

/-- Inversion for `get_dev_mode`: success means the DEVMODE is present. -/
theorem get_dev_mode_ok {devmode : String → Option DevMode} {n : String} {d : DevMode}
    (h : get_dev_mode devmode n = .ok d) : devmode n = some d := by
  unfold get_dev_mode at h
  cases hd : devmode n with
  | none => rw [hd] at h; simp at h
  | some d' =>
    rw [hd] at h
    simp only [Except.ok.injEq] at h
    rw [h]

/-- Inversion for `get_dev_mode`: failure means the DEVMODE is absent. -/
theorem get_dev_mode_error {devmode : String → Option DevMode} {n : String} {s : String}
    (h : get_dev_mode devmode n = .error s) : devmode n = none := by
  unfold get_dev_mode at h
  cases hd : devmode n with
  | none => rfl
  | some d' => rw [hd] at h; simp at h

/-- Search-loop inversion: a found monitor is the first enumerated
monitor whose name equals the requested one; every earlier monitor has
a readable, different name. -/
theorem findMonitor_some {info : Nat → Option MonitorInfo} {dname : String} :
    ∀ {ms : List Nat} {h : Nat}, findMonitor info ms dname = .ok (some h) →
      ∃ pre post, ms = pre ++ h :: post ∧ monitorName info h = .ok dname ∧
        ∀ h' ∈ pre, ∃ n', monitorName info h' = .ok n' ∧ n' ≠ dname := by
  intro ms
  induction ms with
  | nil => intro h hf; simp [findMonitor] at hf
  | cons a t ih =>
    intro h hf
    simp only [findMonitor] at hf
    split at hf
    · simp at hf
    · rename_i n hmn
      split at hf
      · rename_i hna
        simp only [Except.ok.injEq, Option.some.injEq] at hf
        subst hf
        exact ⟨[], t, rfl, by rw [hmn, hna], by simp⟩
      · rename_i hna
        obtain ⟨pre, post, hms, hname, hpre⟩ := ih hf
        refine ⟨a :: pre, post, by rw [hms]; rfl, hname, ?_⟩
        intro h' hh'
        rcases List.mem_cons.mp hh' with rfl | hmem
        · exact ⟨n, hmn, hna⟩
        · exact hpre h' hmem

/-- Search-loop inversion: when every enumerated monitor has a readable
name different from the requested one, the search comes back empty. -/
theorem findMonitor_none {info : Nat → Option MonitorInfo} {dname : String} :
    ∀ ms : List Nat, (∀ h ∈ ms, ∃ n, monitorName info h = .ok n ∧ n ≠ dname) →
      findMonitor info ms dname = .ok none := by
  intro ms
  induction ms with
  | nil => intro _; rfl
  | cons a t ih =>
    intro hall
    obtain ⟨n, hmn, hne⟩ := hall a (List.mem_cons_self a t)
    simp only [findMonitor]
    rw [hmn]
    simp only [if_neg hne]
    exact ih (fun h hh => hall h (List.mem_cons_of_mem a hh))

/-- The search loop only looks at monitor names. -/
theorem findMonitor_congr {info info' : Nat → Option MonitorInfo}
    (hname : ∀ h, monitorName info h = monitorName info' h) :
    ∀ (ms : List Nat) (dname : String),
      findMonitor info ms dname = findMonitor info' ms dname := by
  intro ms dname
  induction ms with
  | nil => rfl
  | cons a t ih =>
    simp only [findMonitor]
    rw [hname a, ih]

/-- Search-loop failure inversion: the only panic the search can raise
is the info-query panic inside the name getter. -/
theorem findMonitor_error {info : Nat → Option MonitorInfo} {dname : String} :
    ∀ {ms : List Nat} {e : Err}, findMonitor info ms dname = .error e →
      e = Err.panicInfo := by
  intro ms
  induction ms with
  | nil => intro e hf; simp [findMonitor] at hf
  | cons a t ih =>
    intro e hf
    simp only [findMonitor] at hf
    split at hf
    · rename_i e' hmn
      simp only [Except.error.injEq] at hf
      subst hf
      exact (monitorName_error hmn).1
    · rename_i n hmn
      split at hf
      · simp at hf
      · exact ih hf

/-- Every event the non-target staging loop issues is a staging write
with the non-target flags, for a monitor in the list whose readable
name differs from the requested one, at exactly its translated
position. -/
theorem stageOthers_all {info : Nat → Option MonitorInfo}
    {devmode : String → Option DevMode} {dname : String} {xo yo : Int} :
    ∀ ms : List Nat, ∀ ev ∈ (stageOthers info devmode ms dname xo yo).1,
      ∃ h, h ∈ ms ∧ ∃ n, monitorName info h = .ok n ∧ n ≠ dname ∧
        ev = Event.stage n ((monitorHandlePosition info h).1 + xo,
          (monitorHandlePosition info h).2 + yo) stageFlags := by
  intro ms
  induction ms with
  | nil => intro ev hev; simp [stageOthers] at hev
  | cons a t ih =>
    intro ev hev
    simp only [stageOthers] at hev
    split at hev
    · simp at hev
    · rename_i n hmn
      split at hev
      · rename_i hna
        split at hev
        · simp at hev
        · rename_i dm hdm
          split at hev
          · simp at hev
          · rename_i nx hax
            split at hev
            · simp at hev
            · rename_i ny hay
              rcases List.mem_cons.mp hev with rfl | hmem
              · exact ⟨a, List.mem_cons_self a t, n, hmn, hna, by
                  rw [addI32_ok hax, addI32_ok hay]⟩
              · obtain ⟨h, hh, hrest⟩ := ih ev hmem
                exact ⟨h, List.mem_cons_of_mem a hh, hrest⟩
      · rename_i hna
        obtain ⟨h, hh, hrest⟩ := ih ev hev
        exact ⟨h, List.mem_cons_of_mem a hh, hrest⟩

/-- Unfolding equation: the staging loop skips a monitor whose name
equals the requested one. -/
theorem stageOthers_cons_skip {info : Nat → Option MonitorInfo}
    {devmode : String → Option DevMode} {dname : String} {xo yo : Int}
    {a : Nat} {t : List Nat} (hma : monitorName info a = .ok dname) :
    stageOthers info devmode (a :: t) dname xo yo =
      stageOthers info devmode t dname xo yo := by
  simp [stageOthers, hma]

/-- Unfolding equation: the staging loop stages a monitor whose name
differs from the requested one when every step succeeds. -/
theorem stageOthers_cons_ok {info : Nat → Option MonitorInfo}
    {devmode : String → Option DevMode} {dname : String} {xo yo : Int}
    {a : Nat} {t : List Nat} {na : String} {dm : DevMode} {nx ny : Int}
    (hma : monitorName info a = .ok na) (hne : na ≠ dname)
    (hdm : get_dev_mode devmode na = .ok dm)
    (hax : addI32 (monitorHandlePosition info a).1 xo = .ok nx)
    (hay : addI32 (monitorHandlePosition info a).2 yo = .ok ny) :
    stageOthers info devmode (a :: t) dname xo yo =
      (Event.stage na (nx, ny) stageFlags :: (stageOthers info devmode t dname xo yo).1,
        (stageOthers info devmode t dname xo yo).2) := by
  simp [stageOthers, hma, hne, hdm, hax, hay]

/-- When the non-target staging loop finishes without a panic, every
monitor in the list whose readable name differs from the requested one
received a staging write at exactly its translated position. -/
theorem stageOthers_none_mem {info : Nat → Option MonitorInfo}
    {devmode : String → Option DevMode} {dname : String} {xo yo : Int} :
    ∀ ms : List Nat, (stageOthers info devmode ms dname xo yo).2 = none →
      ∀ h ∈ ms, ∀ n, monitorName info h = .ok n → n ≠ dname →
        Event.stage n ((monitorHandlePosition info h).1 + xo,
          (monitorHandlePosition info h).2 + yo) stageFlags
          ∈ (stageOthers info devmode ms dname xo yo).1 := by
  intro ms
  induction ms with
  | nil => intro _ h hh; simp at hh
  | cons a t ih =>
    intro hnone h hh n hmn hne
    rcases hsoa : monitorName info a with e | na
    · rw [show stageOthers info devmode (a :: t) dname xo yo = ([], some e) by
        simp [stageOthers, hsoa]] at hnone
      simp at hnone
    · by_cases hnaeq : na = dname
      · subst hnaeq
        rw [stageOthers_cons_skip hsoa] at hnone ⊢
        rcases List.mem_cons.mp hh with rfl | hmem
        · rw [hsoa] at hmn
          simp only [Except.ok.injEq] at hmn
          exact absurd hmn.symm hne
        · exact ih hnone h hmem n hmn hne
      · rcases hdm : get_dev_mode devmode na with s | dm
        · rw [show stageOthers info devmode (a :: t) dname xo yo =
              ([], some (Err.panicDevMode na)) by
            simp [stageOthers, hsoa, hnaeq, hdm]] at hnone
          simp at hnone
        · rcases hax : addI32 (monitorHandlePosition info a).1 xo with e | nx
          · rw [show stageOthers info devmode (a :: t) dname xo yo = ([], some e) by
              simp [stageOthers, hsoa, hnaeq, hdm, hax]] at hnone
            simp at hnone
          · rcases hay : addI32 (monitorHandlePosition info a).2 yo with e | ny
            · rw [show stageOthers info devmode (a :: t) dname xo yo = ([], some e) by
                simp [stageOthers, hsoa, hnaeq, hdm, hax, hay]] at hnone
              simp at hnone
            · rw [stageOthers_cons_ok hsoa hnaeq hdm hax hay] at hnone ⊢
              simp only at hnone
              rcases List.mem_cons.mp hh with rfl | hmem
              · rw [hsoa] at hmn
                simp only [Except.ok.injEq] at hmn
                subst hmn
                rw [addI32_ok hax, addI32_ok hay]
                exact List.mem_cons_self _ _
              · exact List.mem_cons_of_mem _ (ih hnone h hmem n hmn hne)

/-- When the non-target staging loop finishes without a panic, the
DEVMODE of every monitor it staged was present. -/
theorem stageOthers_none_dev {info : Nat → Option MonitorInfo}
    {devmode : String → Option DevMode} {dname : String} {xo yo : Int} :
    ∀ ms : List Nat, (stageOthers info devmode ms dname xo yo).2 = none →
      ∀ h ∈ ms, ∀ n, monitorName info h = .ok n → n ≠ dname → devmode n ≠ none := by
  intro ms
  induction ms with
  | nil => intro _ h hh; simp at hh
  | cons a t ih =>
    intro hnone h hh n hmn hne
    rcases hsoa : monitorName info a with e | na
    · rw [show stageOthers info devmode (a :: t) dname xo yo = ([], some e) by
        simp [stageOthers, hsoa]] at hnone
      simp at hnone
    · by_cases hnaeq : na = dname
      · subst hnaeq
        rw [stageOthers_cons_skip hsoa] at hnone
        rcases List.mem_cons.mp hh with rfl | hmem
        · rw [hsoa] at hmn
          simp only [Except.ok.injEq] at hmn
          exact absurd hmn.symm hne
        · exact ih hnone h hmem n hmn hne
      · rcases hdm : get_dev_mode devmode na with s | dm
        · rw [show stageOthers info devmode (a :: t) dname xo yo =
              ([], some (Err.panicDevMode na)) by
            simp [stageOthers, hsoa, hnaeq, hdm]] at hnone
          simp at hnone
        · rcases hax : addI32 (monitorHandlePosition info a).1 xo with e | nx
          · rw [show stageOthers info devmode (a :: t) dname xo yo = ([], some e) by
              simp [stageOthers, hsoa, hnaeq, hdm, hax]] at hnone
            simp at hnone
          · rcases hay : addI32 (monitorHandlePosition info a).2 yo with e | ny
            · rw [show stageOthers info devmode (a :: t) dname xo yo = ([], some e) by
                simp [stageOthers, hsoa, hnaeq, hdm, hax, hay]] at hnone
              simp at hnone
            · rw [stageOthers_cons_ok hsoa hnaeq hdm hax hay] at hnone
              simp only at hnone
              rcases List.mem_cons.mp hh with rfl | hmem
              · rw [hsoa] at hmn
                simp only [Except.ok.injEq] at hmn
                subst hmn
                rw [get_dev_mode_ok hdm]
                simp
              · exact ih hnone h hmem n hmn hne

/-- When the non-target staging loop aborts with the DEVMODE panic for
some name, the DEVMODE for that name is absent. -/
theorem stageOthers_err_dev {info : Nat → Option MonitorInfo}
    {devmode : String → Option DevMode} {dname : String} {xo yo : Int} :
    ∀ (ms : List Nat) (n : String),
      (stageOthers info devmode ms dname xo yo).2 = some (Err.panicDevMode n) →
      devmode n = none := by
  intro ms
  induction ms with
  | nil => intro n hs; simp [stageOthers] at hs
  | cons a t ih =>
    intro n hs
    rcases hsoa : monitorName info a with e | na
    · rw [show stageOthers info devmode (a :: t) dname xo yo = ([], some e) by
        simp [stageOthers, hsoa]] at hs
      simp only [Option.some.injEq] at hs
      rw [(monitorName_error hsoa).1] at hs
      simp at hs
    · by_cases hnaeq : na = dname
      · subst hnaeq
        rw [stageOthers_cons_skip hsoa] at hs
        exact ih n hs
      · rcases hdm : get_dev_mode devmode na with s | dm
        · rw [show stageOthers info devmode (a :: t) dname xo yo =
              ([], some (Err.panicDevMode na)) by
            simp [stageOthers, hsoa, hnaeq, hdm]] at hs
          simp only [Option.some.injEq, Err.panicDevMode.injEq] at hs
          rw [← hs]
          exact get_dev_mode_error hdm
        · rcases hax : addI32 (monitorHandlePosition info a).1 xo with e | nx
          · rw [show stageOthers info devmode (a :: t) dname xo yo = ([], some e) by
              simp [stageOthers, hsoa, hnaeq, hdm, hax]] at hs
            simp only [Option.some.injEq] at hs
            rw [addI32_error hax] at hs
            simp at hs
          · rcases hay : addI32 (monitorHandlePosition info a).2 yo with e | ny
            · rw [show stageOthers info devmode (a :: t) dname xo yo = ([], some e) by
                simp [stageOthers, hsoa, hnaeq, hdm, hax, hay]] at hs
              simp only [Option.some.injEq] at hs
              rw [addI32_error hay] at hs
              simp at hs
            · rw [stageOthers_cons_ok hsoa hnaeq hdm hax hay] at hs
              simp only at hs
              exact ih n hs

/-- Every event of a non-target staging trace is a staging write with
the non-target flags for a name different from the requested one. -/
theorem trace_from_so {info : Nat → Option MonitorInfo}
    {devmode : String → Option DevMode} {dname : String} {xo yo : Int}
    {ms : List Nat} {ev : Event}
    (hmem : ev ∈ (stageOthers info devmode ms dname xo yo).1) :
    ∃ n p, ev = Event.stage n p stageFlags ∧ n ≠ dname := by
  obtain ⟨h, _, n, _, hne, hev⟩ := stageOthers_all ms ev hmem
  exact ⟨n, _, hev, hne⟩

/-- Success-shape of a `set_primary_monitor` run: an `Ok` result is
either the already-primary short-circuit, or a complete mutation run
whose trace is the non-target staging prefix followed by the target
staging write and the single commit, with the boolean reflecting the
commit status. -/
theorem run_shape {w : World} {dname : String} {b : Bool} {tr : List Event}
    (hrun : set_primary_monitor w dname = (.ok b, tr)) :
    ∃ h, findMonitor w.info w.monitors dname = .ok (some h) ∧
      (monitorHandlePosition w.info h = ((0 : Int), (0 : Int)) ∧ b = true ∧ tr = [] ∨
        monitorHandlePosition w.info h ≠ ((0 : Int), (0 : Int)) ∧
        (stageOthers w.info w.devmode w.monitors dname
            (-(monitorHandlePosition w.info h).1)
            (-(monitorHandlePosition w.info h).2)).2 = none ∧
        w.devmode dname ≠ none ∧
        tr = (stageOthers w.info w.devmode w.monitors dname
            (-(monitorHandlePosition w.info h).1)
            (-(monitorHandlePosition w.info h).2)).1 ++
            [Event.stage dname (0, 0) primaryFlags, Event.commit] ∧
        (b = true ↔ w.commitStatus = DISP_CHANGE_SUCCESSFUL)) := by
  unfold set_primary_monitor at hrun
  split at hrun
  · simp at hrun
  · simp at hrun
  · rename_i this_monitor hf
    refine ⟨this_monitor, hf, ?_⟩
    split at hrun
    · rename_i hc
      left
      simp only [Prod.mk.injEq, Except.ok.injEq] at hrun
      exact ⟨Prod.ext_iff.mpr ⟨hc.1, hc.2⟩, hrun.1.symm, hrun.2.symm⟩
    · rename_i hc
      have hcne : monitorHandlePosition w.info this_monitor ≠ ((0 : Int), (0 : Int)) := by
        intro he
        exact hc ⟨by rw [he], by rw [he]⟩
      right
      split at hrun
      · simp at hrun
      · rename_i x_offset hxo
        split at hrun
        · simp at hrun
        · rename_i y_offset hyo
          have hx := negI32_ok hxo
          have hy := negI32_ok hyo
          subst hx
          subst hy
          split at hrun
          · simp at hrun
          · rename_i tr' hso
            split at hrun
            · simp at hrun
            · rename_i dm hdm
              have hdev : w.devmode dname ≠ none := by
                rw [get_dev_mode_ok hdm]
                simp
              split at hrun
              · rename_i hcs
                simp only [Prod.mk.injEq, Except.ok.injEq] at hrun
                refine ⟨hcne, by rw [hso], hdev, ?_, ?_⟩
                · rw [hso, ← hrun.2]
                · rw [← hrun.1]
                  exact iff_of_true rfl hcs
              · rename_i hcs
                simp only [Prod.mk.injEq, Except.ok.injEq] at hrun
                refine ⟨hcne, by rw [hso], hdev, ?_, ?_⟩
                · rw [hso, ← hrun.2]
                · rw [← hrun.1]
                  exact iff_of_false (by simp) hcs

/-- Error-shape of a `set_primary_monitor` run: a panic aborts before
the finalizing commit is ever issued, and a DEVMODE panic names a
display whose DEVMODE is indeed absent. -/
theorem run_error {w : World} {dname : String} {e : Err} {tr : List Event}
    (hrun : set_primary_monitor w dname = (.error e, tr)) :
    Event.commit ∉ tr ∧ ∀ n, e = Err.panicDevMode n → w.devmode n = none := by
  unfold set_primary_monitor at hrun
  split at hrun
  · rename_i e' hf
    simp only [Prod.mk.injEq, Except.error.injEq] at hrun
    refine ⟨by rw [← hrun.2]; simp, ?_⟩
    intro n hen
    rw [← hrun.1, findMonitor_error hf] at hen
    simp at hen
  · simp only [Prod.mk.injEq, Except.error.injEq] at hrun
    refine ⟨by rw [← hrun.2]; simp, ?_⟩
    intro n hen
    rw [← hrun.1] at hen
    simp at hen
  · rename_i this_monitor hf
    split at hrun
    · simp at hrun
    · split at hrun
      · rename_i e' hxo
        simp only [Prod.mk.injEq, Except.error.injEq] at hrun
        refine ⟨by rw [← hrun.2]; simp, ?_⟩
        intro n hen
        rw [← hrun.1, negI32_error hxo] at hen
        simp at hen
      · rename_i x_offset hxo
        split at hrun
        · rename_i e' hyo
          simp only [Prod.mk.injEq, Except.error.injEq] at hrun
          refine ⟨by rw [← hrun.2]; simp, ?_⟩
          intro n hen
          rw [← hrun.1, negI32_error hyo] at hen
          simp at hen
        · rename_i y_offset hyo
          split at hrun
          · rename_i tr' e' hso
            simp only [Prod.mk.injEq, Except.error.injEq] at hrun
            constructor
            · rw [← hrun.2]
              intro hmem
              have htr' : tr' =
                  (stageOthers w.info w.devmode w.monitors dname x_offset y_offset).1 := by
                rw [hso]
              obtain ⟨n, p, hev, _⟩ := trace_from_so (htr' ▸ hmem)
              simp at hev
            · intro n hen
              rw [← hrun.1] at hen
              refine @stageOthers_err_dev w.info w.devmode dname x_offset y_offset
                w.monitors n ?_
              rw [hso, hen]
          · rename_i tr' hso
            split at hrun
            · simp only [Prod.mk.injEq, Except.error.injEq] at hrun
              constructor
              · rw [← hrun.2]
                intro hmem
                have htr' : tr' =
                    (stageOthers w.info w.devmode w.monitors dname x_offset y_offset).1 := by
                  rw [hso]
                obtain ⟨n, p, hev, _⟩ := trace_from_so (htr' ▸ hmem)
                simp at hev
              · intro n hen
                rw [← hrun.1] at hen
                simp only [Err.panicDevMode.injEq] at hen
                rename_i s hdm
                rw [← hen]
                exact get_dev_mode_error hdm
            · split at hrun
              · simp at hrun
              · simp at hrun

/-- Classification of every event any `set_primary_monitor` run ever
issues: a non-target staging write for some other name, the target
staging write, or the commit. -/
theorem run_trace_all {w : World} {dname : String} {res : Except Err Bool}
    {tr : List Event} (hrun : set_primary_monitor w dname = (res, tr)) :
    ∀ ev ∈ tr, (∃ n p, ev = Event.stage n p stageFlags ∧ n ≠ dname) ∨
      ev = Event.stage dname (0, 0) primaryFlags ∨ ev = Event.commit := by
  unfold set_primary_monitor at hrun
  split at hrun
  · simp only [Prod.mk.injEq] at hrun
    rw [← hrun.2]
    simp
  · simp only [Prod.mk.injEq] at hrun
    rw [← hrun.2]
    simp
  · rename_i this_monitor hf
    split at hrun
    · simp only [Prod.mk.injEq] at hrun
      rw [← hrun.2]
      simp
    · split at hrun
      · simp only [Prod.mk.injEq] at hrun
        rw [← hrun.2]
        simp
      · rename_i x_offset hxo
        split at hrun
        · simp only [Prod.mk.injEq] at hrun
          rw [← hrun.2]
          simp
        · rename_i y_offset hyo
          split at hrun
          · rename_i tr' e' hso
            simp only [Prod.mk.injEq] at hrun
            rw [← hrun.2]
            intro ev hmem
            have htr' : tr' = (stageOthers w.info w.devmode w.monitors dname x_offset y_offset).1 := by
              rw [hso]
            exact Or.inl (trace_from_so (htr' ▸ hmem))
          · rename_i tr' hso
            have htr' : tr' = (stageOthers w.info w.devmode w.monitors dname x_offset y_offset).1 := by
              rw [hso]
            split at hrun
            · simp only [Prod.mk.injEq] at hrun
              rw [← hrun.2]
              intro ev hmem
              exact Or.inl (trace_from_so (htr' ▸ hmem))
            · split at hrun
              · simp only [Prod.mk.injEq] at hrun
                rw [← hrun.2]
                intro ev hmem
                rcases List.mem_append.mp hmem with hmem' | hmem'
                · exact Or.inl (trace_from_so (htr' ▸ hmem'))
                · rcases List.mem_cons.mp hmem' with rfl | hmem''
                  · exact Or.inr (Or.inl rfl)
                  · rcases List.mem_cons.mp hmem'' with rfl | hmem'''
                    · exact Or.inr (Or.inr rfl)
                    · simp at hmem'''
              · simp only [Prod.mk.injEq] at hrun
                rw [← hrun.2]
                intro ev hmem
                rcases List.mem_append.mp hmem with hmem' | hmem'
                · exact Or.inl (trace_from_so (htr' ▸ hmem'))
                · rcases List.mem_cons.mp hmem' with rfl | hmem''
                  · exact Or.inr (Or.inl rfl)
                  · rcases List.mem_cons.mp hmem'' with rfl | hmem'''
                    · exact Or.inr (Or.inr rfl)
                    · simp at hmem'''

/-- A run never issues a non-target staging write carrying the
requested name: monitors sharing the target's name are skipped by the
staging loop. -/
theorem run_no_target_stage {w : World} {dname : String} {res : Except Err Bool}
    {tr : List Event} (hrun : set_primary_monitor w dname = (res, tr)) :
    ∀ p, Event.stage dname p stageFlags ∉ tr := by
  intro p hmem
  rcases run_trace_all hrun _ hmem with ⟨n, q, hev, hne⟩ | hev | hev
  · simp only [Event.stage.injEq] at hev
    exact hne (hev.1.symm)
  · simp only [Event.stage.injEq] at hev
    have : stageFlags = primaryFlags := hev.2.2
    simp [stageFlags, primaryFlags, CDS_UPDATEREGISTRY, CDS_NORESET, CDS_SET_PRIMARY] at this
  · simp at hev

/-- Short-circuit: with the target found at the origin, the call
returns `Ok(true)` with an empty write trace. -/
theorem run_origin {w : World} {dname : String} {h : Nat}
    (hf : findMonitor w.info w.monitors dname = .ok (some h))
    (hp : monitorHandlePosition w.info h = ((0 : Int), (0 : Int))) :
    set_primary_monitor w dname = (.ok true, []) := by
  unfold set_primary_monitor
  rw [hf]
  simp [hp]

/-- Staging-application preserves the device name of every monitor's
info record (only the position field is rewritten). -/
theorem applyStage_info_name (w : World) (n : String) (p : Int × Int) (h : Nat) :
    ((applyStage w n p).info h).map MonitorInfo.name = (w.info h).map MonitorInfo.name := by
  simp only [applyStage]
  cases hwi : w.info h with
  | none => rfl
  | some i =>
    by_cases hn : i.name = n
    · simp [hn]
    · simp [hn]

/-- Staging-application leaves the enumeration order untouched. -/
theorem applyTrace_monitors : ∀ (tr : List Event) (w : World),
    (applyTrace w tr).monitors = w.monitors := by
  intro tr
  induction tr with
  | nil => intro w; rfl
  | cons ev t ih =>
    intro w
    cases ev with
    | stage n p f => rw [applyTrace, ih]; rfl
    | commit => rw [applyTrace, ih]

/-- Applying a trace preserves every monitor's device name and the
readability of its info record. -/
theorem applyTrace_info_name : ∀ (tr : List Event) (w : World) (h : Nat),
    ((applyTrace w tr).info h).map MonitorInfo.name = (w.info h).map MonitorInfo.name := by
  intro tr
  induction tr with
  | nil => intro w h; rfl
  | cons ev t ih =>
    intro w h
    cases ev with
    | stage n p f => rw [applyTrace, ih, applyStage_info_name]
    | commit => rw [applyTrace, ih]

/-- Applying a trace does not change what the name getter returns. -/
theorem applyTrace_monitorName (tr : List Event) (w : World) (h : Nat) :
    monitorName (applyTrace w tr).info h = monitorName w.info h := by
  have hmap := applyTrace_info_name tr w h
  unfold monitorName monitorHandleNameOpt
  cases ha : (applyTrace w tr).info h with
  | none =>
    cases hw : w.info h with
    | none => rfl
    | some j => rw [ha, hw] at hmap; simp at hmap
  | some i =>
    cases hw : w.info h with
    | none => rw [ha, hw] at hmap; simp at hmap
    | some j =>
      rw [ha, hw] at hmap
      simp at hmap
      simp [hmap]

/-- A monitor whose name matches no staging event of a trace keeps its
info record unchanged when the trace is applied. -/
theorem applyTrace_keep : ∀ (tr : List Event) (w : World) (h : Nat) (i : MonitorInfo),
    w.info h = some i →
    (∀ ev ∈ tr, ∀ n p f, ev = Event.stage n p f → n ≠ i.name) →
    (applyTrace w tr).info h = some i := by
  intro tr
  induction tr with
  | nil => intro w h i hi _; exact hi
  | cons ev t ih =>
    intro w h i hi hno
    cases ev with
    | stage n p f =>
      have hn : n ≠ i.name := hno _ (List.mem_cons_self _ _) n p f rfl
      rw [applyTrace]
      refine ih _ h i ?_ (fun ev hev => hno ev (List.mem_cons_of_mem _ hev))
      simp only [applyStage]
      rw [hi]
      simp [Ne.symm hn]
    | commit =>
      rw [applyTrace]
      exact ih _ h i hi (fun ev hev => hno ev (List.mem_cons_of_mem _ hev))

/-- Applying a staging event to a monitor whose info record carries the
staged name moves that monitor to the staged position. -/
theorem applyStage_hit (w : World) (n : String) (p : Int × Int) (h : Nat)
    (i : MonitorInfo) (hi : w.info h = some i) (hn : i.name = n) :
    (applyStage w n p).info h = some { i with posX := p.1, posY := p.2 } := by
  simp only [applyStage]
  rw [hi]
  simp [hn]

/-- C1: for every successful reassignment `set_primary_monitor(target)`
where the target's original position is (tx, ty) ≠ (0, 0), every
non-target monitor with original position (x, y) has its staged new
position equal to exactly (x - tx, y - ty), and the target's staged
position is set to exactly (0, 0). -/
theorem claim_C1 (w : World) (dname : String) (h : Nat) (b : Bool) (tr : List Event)
    (hfind : findMonitor w.info w.monitors dname = .ok (some h))
    (hpos : monitorHandlePosition w.info h ≠ ((0 : Int), (0 : Int)))
    (hrun : set_primary_monitor w dname = (.ok b, tr)) :
    (∀ h' ∈ w.monitors, ∀ n, monitorName w.info h' = .ok n → n ≠ dname →
      Event.stage n
        ((monitorHandlePosition w.info h').1 - (monitorHandlePosition w.info h).1,
          (monitorHandlePosition w.info h').2 - (monitorHandlePosition w.info h).2)
        stageFlags ∈ tr) ∧
    Event.stage dname (0, 0) primaryFlags ∈ tr := by
  obtain ⟨h0, hf0, hsh⟩ := run_shape hrun
  rw [hfind] at hf0
  simp only [Except.ok.injEq, Option.some.injEq] at hf0
  subst hf0
  rcases hsh with ⟨hp, _, _⟩ | ⟨_, hnone, _, htr, _⟩
  · exact absurd hp hpos
  · constructor
    · intro h' hh' n hn hne
      have hmem := stageOthers_none_mem w.monitors hnone h' hh' n hn hne
      rw [htr, sub_eq_add_neg, sub_eq_add_neg]
      exact List.mem_append_left _ hmem
    · rw [htr]
      exact List.mem_append_right _ (List.mem_cons_self _ _)

/-- Witness for C1 at the concrete environment `cw1`, reassigning the
primary role to monitor "B" at (1920, 0). -/
theorem claim_C1_witness :
    findMonitor cw1.info cw1.monitors "B" = .ok (some 1) ∧
    monitorHandlePosition cw1.info 1 ≠ ((0 : Int), (0 : Int)) ∧
    Event.stage "A" (-1920, 0) stageFlags ∈ (set_primary_monitor cw1 "B").2 ∧
    Event.stage "B" (0, 0) primaryFlags ∈ (set_primary_monitor cw1 "B").2 := by
  have hc := claim_C1 cw1 "B" 1 true (set_primary_monitor cw1 "B").2 rfl
    (by decide) rfl
  exact ⟨rfl, by decide, hc.1 0 (by decide) "A" rfl (by decide), hc.2⟩

/-- C2: every completed run of `set_primary_monitor` that reaches the
mutation phase issues all non-target staging writes before the target
staging write, and issues exactly one finalizing commit, last. -/
theorem claim_C2 (w : World) (dname : String) (b : Bool) (tr : List Event)
    (hrun : set_primary_monitor w dname = (.ok b, tr)) (hne : tr ≠ []) :
    ∃ pre, tr = pre ++ [Event.stage dname (0, 0) primaryFlags, Event.commit] ∧
      (∀ ev ∈ pre, ∃ n p, ev = Event.stage n p stageFlags ∧ n ≠ dname) ∧
      tr.count Event.commit = 1 := by
  obtain ⟨h, hf, hsh⟩ := run_shape hrun
  rcases hsh with ⟨_, _, htr⟩ | ⟨_, _, _, htr, _⟩
  · exact absurd htr hne
  · refine ⟨_, htr, fun ev hev => trace_from_so hev, ?_⟩
    rw [htr, List.count_append]
    have h0 : (stageOthers w.info w.devmode w.monitors dname
        (-(monitorHandlePosition w.info h).1)
        (-(monitorHandlePosition w.info h).2)).1.count Event.commit = 0 := by
      rw [List.count_eq_zero]
      intro hmem
      obtain ⟨n, p, hev, _⟩ := trace_from_so hmem
      simp at hev
    rw [h0]
    simp

/-- Witness for C2 at the concrete environment `cw1`. -/
theorem claim_C2_witness :
    (set_primary_monitor cw1 "B").2 ≠ [] ∧
    ∃ pre, (set_primary_monitor cw1 "B").2 =
        pre ++ [Event.stage "B" (0, 0) primaryFlags, Event.commit] ∧
      (∀ ev ∈ pre, ∃ n p, ev = Event.stage n p stageFlags ∧ n ≠ "B") ∧
      ((set_primary_monitor cw1 "B").2).count Event.commit = 1 :=
  ⟨by decide, claim_C2 cw1 "B" true (set_primary_monitor cw1 "B").2 rfl (by decide)⟩

/-- C3: for every requested name that matches no enumerated monitor's
(readable) name, `set_primary_monitor` fails with the monitor-not-found
panic and issues zero configuration writes. -/
theorem claim_C3 (w : World) (dname : String)
    (habs : ∀ h ∈ w.monitors, ∃ n, monitorName w.info h = .ok n ∧ n ≠ dname) :
    set_primary_monitor w dname = (.error (Err.panicNotFound dname), []) := by
  unfold set_primary_monitor
  rw [findMonitor_none w.monitors habs]

/-- Witness for C3 at the concrete environment `cw3` with the
nonexistent name "Z". -/
theorem claim_C3_witness :
    (∀ h ∈ cw3.monitors, ∃ n, monitorName cw3.info h = .ok n ∧ n ≠ "Z") ∧
    set_primary_monitor cw3 "Z" = (.error (Err.panicNotFound "Z"), []) := by
  have habs : ∀ h ∈ cw3.monitors, ∃ n, monitorName cw3.info h = .ok n ∧ n ≠ "Z" := by
    intro h hh
    have hm : cw3.monitors = [0] := rfl
    rw [hm] at hh
    rcases List.mem_singleton.mp hh with rfl
    exact ⟨"A", rfl, by decide⟩
  exact ⟨habs, claim_C3 cw3 "Z" habs⟩

/-- Counterexample for C4 as stated: in `cw4` the OS reports
`DISP_CHANGE_FAILED` for the staging call of monitor "B", yet the
operation does not abort — the staging write is issued, the finalizing
commit is still issued, and the call returns `Ok(true)`, because the
source discards the staging call's status code. -/
theorem claim_C4_counterexample :
    cw4.stageStatus "B" = DISP_CHANGE_FAILED ∧
    Event.stage "B" (-600, 20) stageFlags ∈ (set_primary_monitor cw4 "A").2 ∧
    (set_primary_monitor cw4 "A").1 = .ok true ∧
    Event.commit ∈ (set_primary_monitor cw4 "A").2 :=
  ⟨rfl, by decide, rfl, by decide⟩

/-- C4 (amended): a failure fetching any monitor's DEVMODE during the
staging phase is fatal — the operation aborts without issuing the
finalizing commit, and the panic names a monitor whose DEVMODE query
indeed failed; no successful mutation run coexists with an absent
DEVMODE for any readable monitor name.  The status code returned by
each per-monitor staging call, however, is discarded: the run is
entirely independent of the staging statuses the OS reports. -/
theorem claim_C4_amended (w : World) (dname : String) (res : Except Err Bool)
    (tr : List Event) (hrun : set_primary_monitor w dname = (res, tr)) :
    (∀ e, res = .error e → Event.commit ∉ tr) ∧
    (∀ n, res = .error (Err.panicDevMode n) → w.devmode n = none) ∧
    (∀ b, res = .ok b → tr ≠ [] →
      ∀ h ∈ w.monitors, ∀ n, monitorName w.info h = .ok n → w.devmode n ≠ none) ∧
    (∀ f, set_primary_monitor { w with stageStatus := f } dname = (res, tr)) := by
  refine ⟨?_, ?_, ?_, fun f => hrun⟩
  · intro e he
    exact (run_error (he ▸ hrun)).1
  · intro n hen
    exact (run_error (hen ▸ hrun)).2 n rfl
  · intro b hb hne h hh n hn
    obtain ⟨h0, hf0, hsh⟩ := run_shape (hb ▸ hrun)
    rcases hsh with ⟨_, _, htr⟩ | ⟨_, hnone, hdev, htr, _⟩
    · exact absurd htr hne
    · by_cases hnd : n = dname
      · rw [hnd]
        exact hdev
      · exact stageOthers_none_dev w.monitors hnone h hh n hn hnd

/-- Witness for the amended C4 at the concrete environment `cw4e`,
where fetching monitor "B"'s DEVMODE fails. -/
theorem claim_C4_amended_witness :
    (∀ e, (set_primary_monitor cw4e "A").1 = .error e →
      Event.commit ∉ (set_primary_monitor cw4e "A").2) ∧
    (∀ n, (set_primary_monitor cw4e "A").1 = .error (Err.panicDevMode n) →
      cw4e.devmode n = none) ∧
    (∀ b, (set_primary_monitor cw4e "A").1 = .ok b →
      (set_primary_monitor cw4e "A").2 ≠ [] →
      ∀ h ∈ cw4e.monitors, ∀ n, monitorName cw4e.info h = .ok n →
        cw4e.devmode n ≠ none) ∧
    (∀ f, set_primary_monitor { cw4e with stageStatus := f } "A" =
      ((set_primary_monitor cw4e "A").1, (set_primary_monitor cw4e "A").2)) :=
  claim_C4_amended cw4e "A" _ _ rfl

/-- C5: when a run reaches the finalizing commit it returns `Ok(true)`
exactly when the commit status is `DISP_CHANGE_SUCCESSFUL`, and
`Ok(false)` for every other status — never an error. -/
theorem claim_C5 (w : World) (dname : String) (res : Except Err Bool) (tr : List Event)
    (hrun : set_primary_monitor w dname = (res, tr)) (hc : Event.commit ∈ tr) :
    (res = .ok true ↔ w.commitStatus = DISP_CHANGE_SUCCESSFUL) ∧
    (res = .ok false ↔ w.commitStatus ≠ DISP_CHANGE_SUCCESSFUL) := by
  cases res with
  | error e => exact absurd hc (run_error hrun).1
  | ok b =>
    obtain ⟨h, hf, hsh⟩ := run_shape hrun
    rcases hsh with ⟨_, _, htr⟩ | ⟨_, _, _, _, hiff⟩
    · rw [htr] at hc
      simp at hc
    · constructor
      · simpa using hiff
      · simp only [Except.ok.injEq]
        constructor
        · intro hbf hs
          rw [hiff.mpr hs] at hbf
          simp at hbf
        · intro hns
          cases b
          · rfl
          · exact absurd (hiff.mp rfl) hns

/-- Witness for C5 at the concrete environment `cw5`, whose finalizing
commit is rejected: the run returns `Ok(false)`. -/
theorem claim_C5_witness :
    Event.commit ∈ (set_primary_monitor cw5 "B").2 ∧
    ((set_primary_monitor cw5 "B").1 = .ok true ↔
      cw5.commitStatus = DISP_CHANGE_SUCCESSFUL) ∧
    ((set_primary_monitor cw5 "B").1 = .ok false ↔
      cw5.commitStatus ≠ DISP_CHANGE_SUCCESSFUL) :=
  ⟨by decide, claim_C5 cw5 "B" _ _ rfl (by decide)⟩

/-- Applying a concatenated trace applies the two parts in order. -/
theorem applyTrace_append : ∀ (t1 t2 : List Event) (w : World),
    applyTrace w (t1 ++ t2) = applyTrace (applyTrace w t1) t2 := by
  intro t1
  induction t1 with
  | nil => intro t2 w; rfl
  | cons ev t ih =>
    intro t2 w
    cases ev with
    | stage n p f => rw [List.cons_append, applyTrace, applyTrace, ih]
    | commit => rw [List.cons_append, applyTrace, applyTrace, ih]

/-- C6: if the target monitor's current position is exactly (0, 0),
`set_primary_monitor` returns `Ok(true)` immediately with zero
configuration writes; and after any call for a name that returned
`Ok(true)`, a second call for the same name short-circuits to
`Ok(true)` with zero configuration writes (idempotence). -/
theorem claim_C6 (w : World) (dname : String) (h : Nat)
    (hfind : findMonitor w.info w.monitors dname = .ok (some h)) :
    (monitorHandlePosition w.info h = ((0 : Int), (0 : Int)) →
      set_primary_monitor w dname = (.ok true, [])) ∧
    (∀ tr, set_primary_monitor w dname = (.ok true, tr) →
      set_primary_monitor (nextWorld w dname) dname = (.ok true, [])) := by
  constructor
  · intro hp
    exact run_origin hfind hp
  · intro tr hrun
    have hnw : nextWorld w dname = applyTrace w tr := by
      unfold nextWorld
      rw [hrun]
    obtain ⟨h0, hf0, hsh⟩ := run_shape hrun
    rw [hfind] at hf0
    simp only [Except.ok.injEq, Option.some.injEq] at hf0
    subst hf0
    obtain ⟨pre, post, hms, hname, hpre⟩ := findMonitor_some hfind
    obtain ⟨i, hi, hiname⟩ := monitorName_ok hname
    have hfind' : findMonitor (nextWorld w dname).info (nextWorld w dname).monitors dname
        = .ok (some h) := by
      rw [hnw, applyTrace_monitors]
      rw [findMonitor_congr (fun h' => applyTrace_monitorName tr w h') w.monitors dname]
      exact hfind
    rcases hsh with ⟨hp, _, htr⟩ | ⟨_, hnone, _, htr, _⟩
    · subst htr
      have hw : nextWorld w dname = w := by rw [hnw]; rfl
      rw [hw]
      exact hrun
    · have hso_names : ∀ ev ∈ (stageOthers w.info w.devmode w.monitors dname
          (-(monitorHandlePosition w.info h).1)
          (-(monitorHandlePosition w.info h).2)).1,
          ∀ n p f, ev = Event.stage n p f → n ≠ i.name := by
        intro ev hev n p f hevf
        obtain ⟨n', p', hev', hne'⟩ := trace_from_so hev
        have heq := hevf.symm.trans hev'
        simp only [Event.stage.injEq] at heq
        rw [heq.1, hiname]
        exact hne'
      have hkeep := applyTrace_keep _ w h i hi hso_names
      have hpos' : (nextWorld w dname).info h = some { i with posX := 0, posY := 0 } := by
        rw [hnw, htr, applyTrace_append]
        rw [applyTrace, applyTrace, applyTrace]
        exact applyStage_hit _ dname (0, 0) h i hkeep hiname
      have hpos'' : monitorHandlePosition (nextWorld w dname).info h
          = ((0 : Int), (0 : Int)) := by
        simp [monitorHandlePosition, hpos']
      exact run_origin hfind' hpos''

/-- Witness for C6 at the concrete environment `cw1`: the call for "A"
(already primary) is an immediate `Ok(true)` no-op, and after a
successful reassignment to "B" the repeated call for "B"
short-circuits with zero writes. -/
theorem claim_C6_witness :
    findMonitor cw1.info cw1.monitors "A" = .ok (some 0) ∧
    set_primary_monitor cw1 "A" = (.ok true, []) ∧
    findMonitor cw1.info cw1.monitors "B" = .ok (some 1) ∧
    set_primary_monitor cw1 "B" = (.ok true,
      [Event.stage "A" (-1920, 0) stageFlags,
        Event.stage "B" (0, 0) primaryFlags, Event.commit]) ∧
    set_primary_monitor (nextWorld cw1 "B") "B" = (.ok true, []) :=
  ⟨rfl, (claim_C6 cw1 "A" 0 rfl).1 rfl, rfl, rfl,
    (claim_C6 cw1 "B" 1 rfl).2 _ rfl⟩

/-- Counterexample for C7 as stated: in `cw7` two monitors share the
name "A"; the first (at (10, 20)) is used as the target, but the later
one (at (30, 40)) is not treated as a non-target monitor — it receives
no staging write at its translated position (20, 20); the whole trace
holds only the target staging write and the commit. -/
theorem claim_C7_counterexample :
    monitorName cw7.info 0 = .ok "A" ∧
    monitorName cw7.info 1 = .ok "A" ∧
    monitorHandlePosition cw7.info 0 = (10, 20) ∧
    monitorHandlePosition cw7.info 1 = (30, 40) ∧
    set_primary_monitor cw7 "A" =
      (.ok true, [Event.stage "A" (0, 0) primaryFlags, Event.commit]) ∧
    Event.stage "A" (20, 20) stageFlags ∉ (set_primary_monitor cw7 "A").2 :=
  ⟨rfl, rfl, rfl, rfl, rfl, by decide⟩

/-- C7 (amended): the first match in enumeration order is used as the
target, and every later monitor sharing the requested name is skipped
by the non-target staging loop — no run ever issues a non-target
staging write carrying the requested name. -/
theorem claim_C7_amended (w : World) (dname : String) (h : Nat)
    (hfind : findMonitor w.info w.monitors dname = .ok (some h)) :
    (∃ pre post, w.monitors = pre ++ h :: post ∧
      monitorName w.info h = .ok dname ∧
      ∀ h' ∈ pre, ∃ n', monitorName w.info h' = .ok n' ∧ n' ≠ dname) ∧
    (∀ res tr, set_primary_monitor w dname = (res, tr) →
      ∀ p, Event.stage dname p stageFlags ∉ tr) :=
  ⟨findMonitor_some hfind, fun _ _ hrun => run_no_target_stage hrun⟩

/-- Witness for the amended C7 at the concrete environment `cw7`. -/
theorem claim_C7_amended_witness :
    (∃ pre post, cw7.monitors = pre ++ 0 :: post ∧
      monitorName cw7.info 0 = .ok "A" ∧
      ∀ h' ∈ pre, ∃ n', monitorName cw7.info h' = .ok n' ∧ n' ≠ "A") ∧
    (∀ res tr, set_primary_monitor cw7 "A" = (res, tr) →
      ∀ p, Event.stage "A" p stageFlags ∉ tr) :=
  claim_C7_amended cw7 "A" 0 rfl

/-- Counterexample for C8 as stated: `Monitor::set_primary` does not
return the boolean that `set_primary_monitor` produces — in `cw8` the
underlying call returns `Ok(true)` and in `cw8f` it returns
`Ok(false)`, yet `Monitor::set_primary` returns the identical `Ok(())`
in both environments, discarding the boolean. -/
theorem claim_C8_counterexample :
    (set_primary_monitor cw8 "A").1 = .ok true ∧
    (set_primary_monitor cw8f "A").1 = .ok false ∧
    monitor_set_primary cw8 0 = monitor_set_primary cw8f 0 ∧
    (monitor_set_primary cw8 0).1 = .ok () :=
  ⟨rfl, rfl, rfl, rfl⟩

/-- C8 (amended): `Monitor::set_primary` delegates to
`set_primary_monitor` with the monitor's own name and issues the same
writes, but discards the boolean result, returning unit (panics still
propagate). -/
theorem claim_C8_amended (w : World) (h : Nat) (n : String)
    (hname : monitorName w.info h = .ok n) :
    monitor_set_primary w h =
      ((set_primary_monitor w n).1.map (fun _ => ()),
        (set_primary_monitor w n).2) := by
  have hme : monitor_set_primary w h =
      (match (set_primary_monitor w n).1 with
        | .ok _ => ((Except.ok () : Except Err Unit), (set_primary_monitor w n).2)
        | .error e => (.error e, (set_primary_monitor w n).2)) := by
    unfold monitor_set_primary
    rw [hname]
  rw [hme]
  cases hr : (set_primary_monitor w n).1 with
  | ok b => simp [Except.map]
  | error e => simp [Except.map]

/-- Witness for the amended C8 at the concrete environment `cw8`. -/
theorem claim_C8_amended_witness :
    monitorName cw8.info 0 = .ok "A" ∧
    monitor_set_primary cw8 0 =
      ((set_primary_monitor cw8 "A").1.map (fun _ => ()),
        (set_primary_monitor cw8 "A").2) :=
  ⟨rfl, claim_C8_amended cw8 0 "A" rfl⟩

/-- C9: for every reported dpi value, the scale factor equals dpi / 96
(e.g. dpi = 144 yields scale 3 / 2), where 96 is the baseline DPI. -/
theorem claim_C9 (w : World) (h : Nat) (d : Nat)
    (hd : get_monitor_dpi w h = some d) :
    monitorHandleScaleFactor w h = (d : ℚ) / 96 ∧
    dpi_to_scale_factor 144 = 3 / 2 := by
  constructor
  · unfold monitorHandleScaleFactor
    rw [hd]
    simp [dpi_to_scale_factor, BASE_DPI]
  · norm_num [dpi_to_scale_factor, BASE_DPI]

/-- Witness for C9 at the concrete environment `cw9`, whose monitor
reports a DPI of 144. -/
theorem claim_C9_witness :
    get_monitor_dpi cw9 0 = some 144 ∧
    monitorHandleScaleFactor cw9 0 = (144 : ℚ) / 96 ∧
    dpi_to_scale_factor 144 = 3 / 2 :=
  ⟨rfl, (claim_C9 cw9 0 144 rfl).1, (claim_C9 cw9 0 144 rfl).2⟩

/-- Unfolding equation: the search loop aborts on a monitor whose name
getter panics. -/
theorem findMonitor_cons_err {info : Nat → Option MonitorInfo} {dname : String}
    {a : Nat} {t : List Nat} {e : Err} (hma : monitorName info a = .error e) :
    findMonitor info (a :: t) dname = .error e := by
  simp [findMonitor, hma]

/-- Unfolding equation: the search loop moves past a monitor whose name
differs from the requested one. -/
theorem findMonitor_cons_skip {info : Nat → Option MonitorInfo} {dname : String}
    {a : Nat} {t : List Nat} {na : String} (hma : monitorName info a = .ok na)
    (hne : na ≠ dname) :
    findMonitor info (a :: t) dname = findMonitor info t dname := by
  simp [findMonitor, hma, hne]

/-- When an enumerated monitor's info query fails and no earlier
monitor matches the requested name, the search loop panics with the
info-query panic. -/
theorem findMonitor_panic {info : Nat → Option MonitorInfo} {dname : String} {h : Nat}
    (hinfo : info h = none) :
    ∀ (pre post : List Nat), (∀ h' ∈ pre, monitorName info h' ≠ .ok dname) →
      findMonitor info (pre ++ h :: post) dname = .error Err.panicInfo := by
  intro pre
  induction pre with
  | nil =>
    intro post _
    rw [List.nil_append]
    refine findMonitor_cons_err ?_
    simp [monitorName, monitorHandleNameOpt, hinfo]
  | cons a t ih =>
    intro post hpre
    rw [List.cons_append]
    cases hma : monitorName info a with
    | error e =>
      rw [findMonitor_cons_err hma, (monitorName_error hma).1]
    | ok na =>
      have hne : na ≠ dname := by
        intro hcontra
        exact hpre a (List.mem_cons_self a t) (by rw [hma, hcontra])
      rw [findMonitor_cons_skip hma hne]
      exact ih post (fun h' hh' => hpre h' (List.mem_cons_of_mem a hh'))

/-- Counterexample for C10 as stated: in `cw10` the only enumerated
monitor's info query fails; `position()` does default to (0, 0), but
`set_primary_monitor` does not take the already-primary short-circuit
and does not return true — it panics in the name lookup of the search
loop, before any position is read, with zero configuration writes. -/
theorem claim_C10_counterexample :
    cw10.info 0 = none ∧
    (0 : Nat) ∈ cw10.monitors ∧
    monitorHandlePosition cw10.info 0 = ((0 : Int), (0 : Int)) ∧
    set_primary_monitor cw10 "X" = (.error Err.panicInfo, []) :=
  ⟨rfl, by decide, rfl, rfl⟩

/-- C10 (amended): `position()` returns (0, 0) when the info query
fails; but `set_primary_monitor` on a monitor whose info cannot be
read (with no earlier monitor matching the requested name) aborts with
the info-query panic raised by the name getter, with zero configuration
writes — the already-primary short-circuit is never reached. -/
theorem claim_C10_amended (w : World) (dname : String) (h : Nat)
    (pre post : List Nat) (hms : w.monitors = pre ++ h :: post)
    (hinfo : w.info h = none)
    (hpre : ∀ h' ∈ pre, monitorName w.info h' ≠ .ok dname) :
    monitorHandlePosition w.info h = ((0 : Int), (0 : Int)) ∧
    set_primary_monitor w dname = (.error Err.panicInfo, []) := by
  constructor
  · simp [monitorHandlePosition, hinfo]
  · unfold set_primary_monitor
    rw [hms, findMonitor_panic hinfo pre post hpre]

/-- Witness for the amended C10 at the concrete environment `cw10`. -/
theorem claim_C10_amended_witness :
    cw10.monitors = [] ++ 0 :: [] ∧
    cw10.info 0 = none ∧
    monitorHandlePosition cw10.info 0 = ((0 : Int), (0 : Int)) ∧
    set_primary_monitor cw10 "X" = (.error Err.panicInfo, []) := by
  have hpre : ∀ h' ∈ ([] : List Nat), monitorName cw10.info h' ≠ .ok "X" := by
    simp
  have hc := claim_C10_amended cw10 "X" 0 [] [] rfl rfl hpre
  exact ⟨rfl, rfl, hc.1, hc.2⟩

end Wmutil

